import Mathlib

/-!
Shallow embedding of `pandasai/dataset_loader.py` (class `DatasetLoader`).

The loader reads a declarative schema, validates the source type against a
static registry, decides cache freshness from the artifact's modification
time and the schema's `update_frequency`, and either reads the cache or
fetches from the source backend, applies the declared transformations and
writes the cache.

External collaborators (the pandas codecs, the hash primitive `hashlib.md5`,
the timezone conversion of `pandas`, and the source backend modules) are
modelled as parameters: the loader's results are stated for every choice of
those collaborators.  Time is an integer timestamp (seconds); `now` is a
parameter.  The filesystem is an association list from paths to artifacts.
A run of `load` returns its result, the final filesystem, and the trace of
cache/source effects it performed, in order.
-/

/-- A Python value held in a table cell: a string, an integer, or `None`.
Only `isinstance(value, str)` matters to the code; every non-string
constructor behaves alike. -/
inductive PyVal where
  | vstr (s : String)
  | vint (n : Int)
  | vnone
deriving DecidableEq, Repr

/-- A table (`pd.DataFrame`): named columns with their cell values. -/
structure Table where
  cols : List (String × List PyVal)
deriving DecidableEq, Repr

/-- Python exceptions raised by the loader or its collaborators. -/
inductive PyError where
  | keyError (k : String)
  | valueError (msg : String)
  | importError (msg : String)
  | externalError (msg : String)
deriving DecidableEq, Repr

/-- `schema["source"]`: the source clause of the schema. -/
structure SourceClause where
  type : String
  connection : List (String × String)
  table : String
deriving DecidableEq, Repr

/-- One entry of `schema["columns"]`. -/
structure ColumnDecl where
  name : String
  dtype : Option String
deriving DecidableEq, Repr

/-- `schema["destination"]`: cache format and optional explicit path. -/
structure Destination where
  format : String
  path : Option String
deriving DecidableEq, Repr

/-- `schema["order_by"]`: a scalar string or a sequence of strings. -/
inductive OrderBy where
  | scalar (s : String)
  | seq (l : List String)
deriving DecidableEq, Repr

/-- `transform["params"]`: the named column, and the target timezone for
`convert_timezone`. -/
structure TransformParams where
  column : String
  «to» : Option String
deriving DecidableEq, Repr

/-- One entry of `schema["transformations"]`. -/
structure Transform where
  type : String
  params : TransformParams
deriving DecidableEq, Repr

/-- The parsed schema document.  Optional YAML keys are `Option`; reading an
absent required key in the Python code raises `KeyError`, which the
embedding models explicitly where the code performs such a read. -/
structure Schema where
  source : SourceClause
  columns : List ColumnDecl
  destination : Destination
  update_frequency : Option String
  order_by : Option OrderBy
  limit : Option Nat
  transformations : List Transform
deriving DecidableEq, Repr

/-- A cache artifact on disk: the serialized table and the file's
modification timestamp. -/
structure Artifact where
  content : Table
  mtime : Int
deriving DecidableEq, Repr

/-- The filesystem visible to the loader: paths mapped to artifacts. -/
structure FS where
  files : List (String × Artifact)
deriving DecidableEq, Repr

/-- `os.path.exists` / `os.path.getmtime` / reading: look a path up. -/
def FS.get (fs : FS) (p : String) : Option Artifact :=
  (fs.files.find? (fun f => f.1 = p)).map (fun f => f.2)

/-- Writing a file: replace the artifact at `p`, or add it. -/
def FS.set (fs : FS) (p : String) (a : Artifact) : FS :=
  if (fs.files.find? (fun f => f.1 = p)).isSome then
    ⟨fs.files.map (fun f => if f.1 = p then (p, a) else f)⟩
  else
    ⟨fs.files ++ [(p, a)]⟩

/-- The observable cache/source effects of one `load` call, in order. -/
inductive Effect where
  | cacheCheck (path : String)
  | cacheRead (path : String)
  | sourceFetch (query : String)
  | cacheWrite (path : String)
deriving DecidableEq, Repr

/-- `DatasetLoader.SUPPORTED_SOURCES`: source-type → backend module. -/
def SUPPORTED_SOURCES : List (String × String) :=
  [("mysql", "pandasai_sql"),
   ("postgres", "pandasai_sql"),
   ("yahoo_finance", "pandasai.connectors.yfinance"),
   ("bigquery", "pandasai.ee.connectors.bigquery"),
   ("snowflake", "pandasai.ee.connectors.snowflake"),
   ("databricks", "pandasai.ee.connectors.databricks"),
   ("oracle", "pandasai.ee.connectors.oracle")]

/-- `os.path.join` for two components (POSIX rules: an absolute second
component discards the first; otherwise insert `/` unless one is already
there). -/
def osPathJoin (a b : String) : String :=
  if b.data.head? = some '/' then b
  else if a = "" ∨ a.data.getLast? = some '/' then a ++ b
  else a ++ "/" ++ b

/-- `DatasetLoader._validate_source_type`. -/
def validate_source_type (schema : Schema) : Except PyError Unit :=
  let source_type := schema.source.type
  if (SUPPORTED_SOURCES.map Prod.fst).contains source_type then .ok ()
  else .error (.valueError ("Unsupported database type: " ++ source_type))

/-- `DatasetLoader._get_cache_file_path`. -/
def get_cache_file_path (schema : Schema) (dataset_path : String) : String :=
  match schema.destination.path with
  | some p => osPathJoin (osPathJoin "datasets" dataset_path) p
  | none =>
    let file_extension := if schema.destination.format = "parquet" then "parquet" else "csv"
    osPathJoin (osPathJoin "datasets" dataset_path) ("data." ++ file_extension)

/-- `timedelta(weeks=1)` in seconds. -/
def oneWeek : Int := 7 * 24 * 60 * 60

/-- `DatasetLoader._is_cache_valid`.  Note the code checks existence first
and only then reads `self.schema["update_frequency"]`, so an absent
`update_frequency` raises `KeyError` exactly when the artifact exists. -/
def is_cache_valid (schema : Schema) (now : Int) (fs : FS) (cache_file : String) :
    Except PyError Bool :=
  match fs.get cache_file with
  | none => .ok false
  | some art =>
    match schema.update_frequency with
    | none => .error (.keyError "update_frequency")
    | some update_frequency =>
      if update_frequency = "weekly" then .ok (decide (art.mtime > now - oneWeek))
      else .ok false

/-- `DatasetLoader._read_cache` (the pandas readers are the identity on the
stored table; codec internals are out of scope). -/
def read_cache (schema : Schema) (fs : FS) (cache_file : String) : Except PyError Table :=
  let cache_format := schema.destination.format
  if cache_format = "parquet" then
    match fs.get cache_file with
    | some art => .ok art.content
    | none => .error (.externalError ("missing file: " ++ cache_file))
  else if cache_format = "csv" then
    match fs.get cache_file with
    | some art => .ok art.content
    | none => .error (.externalError ("missing file: " ++ cache_file))
  else .error (.valueError ("Unsupported cache format: " ++ cache_format))

/-- `DatasetLoader._cache_data`: serialize to the computed path (the new
artifact's modification time is `now`), or raise on an unsupported format
without touching the filesystem. -/
def cache_data (schema : Schema) (df : Table) (now : Int) (fs : FS) (cache_file : String) :
    Except PyError FS :=
  let cache_format := schema.destination.format
  if cache_format = "parquet" then .ok (fs.set cache_file ⟨df, now⟩)
  else if cache_format = "csv" then .ok (fs.set cache_file ⟨df, now⟩)
  else .error (.valueError ("Unsupported cache format: " ++ cache_format))

/-- `str.rsplit(sep, 1)` step: split a list at its first `sep`. -/
def splitFirst (sep : Char) : List Char → Option (List Char × List Char)
  | [] => none
  | c :: rest =>
    if c = sep then some ([], rest)
    else
      match splitFirst sep rest with
      | none => none
      | some (a, b) => some (c :: a, b)

/-- Python `s.rsplit(sep, 1)`: split at the last occurrence of `sep`,
returning `[s]` when `sep` does not occur and `[front, back]` otherwise. -/
def rsplit1 (sep : Char) (s : List Char) : List (List Char) :=
  match splitFirst sep s.reverse with
  | none => [s]
  | some (backRev, frontRev) => [frontRev.reverse, backRev.reverse]

/-- `DatasetLoader._anonymize`, parameterized by the hash primitive
(`hashlib.md5(...).hexdigest()`), an opaque deterministic string map. -/
def anonymize (md5hex : String → String) (value : PyVal) : PyVal :=
  match value with
  | .vstr s =>
    if '@' ∈ s.data then
      match rsplit1 '@' s.data with
      | [localPart, domain] =>
        .vstr (md5hex (String.mk localPart) ++ "@" ++ String.mk domain)
      | _ => value
    else value
  | v => v

/-- `df[name]`: the values of the named column (`KeyError` when absent is
raised by the caller). -/
def Table.getCol (t : Table) (name : String) : Option (List PyVal) :=
  (t.cols.find? (fun c => c.1 = name)).map (fun c => c.2)

/-- `df[name] = vs` on an existing column: replace its values in place. -/
def Table.setCol (t : Table) (name : String) (vs : List PyVal) : Table :=
  ⟨t.cols.map (fun c => if c.1 = name then (c.1, vs) else c)⟩

/-- One iteration of the loop in `DatasetLoader._apply_transformations`:
dispatch on `transform["type"]`, mutating the named column, silently
skipping unknown types.  `tz` is the external
`pd.to_datetime(...).dt.tz_convert(target)` column map, which may fail. -/
def applyTransform (md5hex : String → String)
    (tz : String → List PyVal → Except PyError (List PyVal))
    (t : Transform) (df : Table) : Except PyError Table :=
  if t.type = "anonymize" then
    match df.getCol t.params.column with
    | none => .error (.keyError t.params.column)
    | some vs => .ok (df.setCol t.params.column (vs.map (anonymize md5hex)))
  else if t.type = "convert_timezone" then
    match df.getCol t.params.column with
    | none => .error (.keyError t.params.column)
    | some vs =>
      match t.params.«to» with
      | none => .error (.keyError "to")
      | some target =>
        match tz target vs with
        | .ok vs2 => .ok (df.setCol t.params.column vs2)
        | .error e => .error e
  else .ok df

/-- The loop of `DatasetLoader._apply_transformations` over a list of
transformation entries, stopping at the first raised exception. -/
def applyTransformList (md5hex : String → String)
    (tz : String → List PyVal → Except PyError (List PyVal)) :
    List Transform → Table → Except PyError Table
  | [], df => .ok df
  | t :: ts, df =>
    match applyTransform md5hex tz t df with
    | .error e => .error e
    | .ok df2 => applyTransformList md5hex tz ts df2

/-- `DatasetLoader._apply_transformations`. -/
def apply_transformations (md5hex : String → String)
    (tz : String → List PyVal → Except PyError (List PyVal))
    (schema : Schema) (df : Table) : Except PyError Table :=
  applyTransformList md5hex tz schema.transformations df

/-- `DatasetLoader._generate_query`. -/
def generate_query (schema : Schema) : String :=
  let columns := String.intercalate ", " (schema.columns.map (fun col => col.name))
  let table_name := schema.source.table
  let query := "SELECT " ++ columns ++ " FROM " ++ table_name
  let query :=
    match schema.order_by with
    | none => query
    | some ob =>
      let order_by_clause :=
        match ob with
        | .seq l => String.intercalate ", " l
        | .scalar s => s
      query ++ " ORDER BY " ++ order_by_clause
  match schema.limit with
  | none => query
  | some n => query ++ " LIMIT " ++ toString n

/-- `DatasetLoader.load`, given the parsed schema (schema-file reading and
YAML parsing are external).  `fetch` is the source backend behavior as a
function of the generated query (`_load_from_source`, whose import and
dispatch machinery is external); it returns the fetched table or the
backend's exception.  The result is the returned table or the raised
exception, the final filesystem, and the effect trace. -/
def load (md5hex : String → String)
    (tz : String → List PyVal → Except PyError (List PyVal))
    (fetch : String → Except PyError Table)
    (schema : Schema) (dataset_path : String) (now : Int) (fs : FS) :
    Except PyError Table × FS × List Effect :=
  match validate_source_type schema with
  | .error e => (.error e, fs, [])
  | .ok _ =>
    let cache_file := get_cache_file_path schema dataset_path
    match is_cache_valid schema now fs cache_file with
    | .error e => (.error e, fs, [.cacheCheck cache_file])
    | .ok true =>
      match read_cache schema fs cache_file with
      | .error e => (.error e, fs, [.cacheCheck cache_file])
      | .ok t => (.ok t, fs, [.cacheCheck cache_file, .cacheRead cache_file])
    | .ok false =>
      let q := generate_query schema
      match fetch q with
      | .error e => (.error e, fs, [.cacheCheck cache_file, .sourceFetch q])
      | .ok df =>
        match apply_transformations md5hex tz schema df with
        | .error e => (.error e, fs, [.cacheCheck cache_file, .sourceFetch q])
        | .ok df2 =>
          match cache_data schema df2 now fs cache_file with
          | .error e => (.error e, fs, [.cacheCheck cache_file, .sourceFetch q])
          | .ok fs2 =>
            (.ok df2, fs2, [.cacheCheck cache_file, .sourceFetch q, .cacheWrite cache_file])

/-! ## Concrete fixtures used by witnesses and counterexamples -/

/-- A concrete deterministic stand-in for the opaque hash collaborator. -/
def hashX : String → String := fun s => "h" ++ s

/-- A concrete timezone collaborator that leaves every column unchanged. -/
def tzX : String → List PyVal → Except PyError (List PyVal) := fun _ vs => Except.ok vs

/-- A concrete two-column table. -/
def tableX : Table :=
  ⟨[("email", [PyVal.vstr "alice@example.com"]), ("age", [PyVal.vint 30])]⟩

/-- A concrete well-formed schema: supported source, `csv` destination with
no explicit path, weekly refresh, no ordering, limit or transformations. -/
def schemaBase : Schema :=
  { source := { type := "mysql", connection := [("host", "localhost")], table := "users" }
    columns := [⟨"email", some "string"⟩, ⟨"age", some "integer"⟩]
    destination := { format := "csv", path := none }
    update_frequency := some "weekly"
    order_by := none
    limit := none
    transformations := [] }

/-- `schemaBase` without the `update_frequency` key. -/
def schemaNoFreq : Schema := { schemaBase with update_frequency := none }

/-- `schemaBase` with an unrecognized `update_frequency`. -/
def schemaDaily : Schema := { schemaBase with update_frequency := some "daily" }

/-- `schemaBase` with an unsupported source type. -/
def schemaMongo : Schema :=
  { schemaBase with source := { schemaBase.source with type := "mongodb" } }

/-- A filesystem holding one cache artifact for dataset `sales`. -/
def fs1 : FS := ⟨[("datasets/sales/data.csv", ⟨tableX, 999⟩)]⟩

/-! ## Helper lemmas on strings and the last-separator split -/

theorem string_data_append (a b : String) : (a ++ b).data = a.data ++ b.data := rfl

theorem string_mk_data (s : String) : String.mk s.data = s := rfl

theorem splitFirst_append {sep : Char} {a : List Char} (b : List Char) (h : sep ∉ a) :
    splitFirst sep (a ++ sep :: b) = some (a, b) := by
  induction a with
  | nil => simp [splitFirst]
  | cons c cs ih =>
    have hc : ¬(c = sep) := fun hc => h (hc ▸ List.mem_cons_self c cs)
    have hcs : sep ∉ cs := fun hm => h (List.mem_cons_of_mem c hm)
    simp [splitFirst, hc, ih hcs]

theorem rsplit1_concat {l d : List Char} (h : '@' ∉ d) :
    rsplit1 '@' (l ++ '@' :: d) = [l, d] := by
  have h' : '@' ∉ d.reverse := fun hm => h (List.mem_reverse.mp hm)
  have hrev : (l ++ '@' :: d).reverse = d.reverse ++ '@' :: l.reverse := by
    simp
  unfold rsplit1
  rw [hrev, splitFirst_append _ h']
  simp

/-- The core of `_anonymize` on a string with an `@`: writing the string as
`l ++ "@" ++ d` with no `@` in `d` identifies the split at the last `@`. -/
theorem anonymize_concat (md5hex : String → String) (l d : String) (h : '@' ∉ d.data) :
    anonymize md5hex (.vstr (l ++ "@" ++ d)) = .vstr (md5hex l ++ "@" ++ d) := by
  have hdata : (l ++ "@" ++ d).data = l.data ++ '@' :: d.data := by
    rw [string_data_append, string_data_append]
    simp
  have hmem : '@' ∈ (l ++ "@" ++ d).data := by
    rw [hdata]; simp
  have hmem2 : '@' ∈ l.data ++ '@' :: d.data := by simp
  simp only [anonymize, hdata, if_pos hmem2, rsplit1_concat h, string_mk_data]

/-! ## Helper lemmas on tables and transformations -/

theorem setCol_names (t : Table) (c : String) (vs : List PyVal) :
    (t.setCol c vs).cols.map Prod.fst = t.cols.map Prod.fst := by
  unfold Table.setCol
  simp only [List.map_map]
  apply List.map_congr_left
  intro f _
  by_cases hf : f.1 = c
  · simp [Function.comp, hf]
  · simp [Function.comp, hf]

theorem find_over_set (c name : String) (vs : List PyVal) (h : name ≠ c)
    (l : List (String × List PyVal)) :
    (l.map (fun f => if f.1 = c then (f.1, vs) else f)).find? (fun f => f.1 = name) =
      l.find? (fun f => f.1 = name) := by
  induction l with
  | nil => rfl
  | cons x xs ih =>
    simp only [List.map_cons]
    by_cases hxc : x.1 = c
    · have hxn : decide (x.1 = name) = false := by
        have hne : ¬(x.1 = name) := fun hn => h (hn.symm.trans hxc)
        simp [hne]
      rw [if_pos hxc]
      simp only [List.find?_cons, hxn]
      exact ih
    · rw [if_neg hxc]
      by_cases hxn : x.1 = name
      · have hd : decide (x.1 = name) = true := by simp [hxn]
        simp only [List.find?_cons, hd]
      · have hd : decide (x.1 = name) = false := by simp [hxn]
        simp only [List.find?_cons, hd]
        exact ih

theorem getCol_setCol_ne (t : Table) (c name : String) (vs : List PyVal)
    (h : name ≠ c) :
    (t.setCol c vs).getCol name = t.getCol name := by
  unfold Table.setCol Table.getCol
  simp only
  rw [find_over_set c name vs h t.cols]

/-- A successful `applyTransform` keeps the column-name list and the values
of every column other than the one named in `params["column"]`. -/
theorem applyTransform_frame (md5hex : String → String)
    (tz : String → List PyVal → Except PyError (List PyVal))
    (t : Transform) (df df' : Table)
    (h : applyTransform md5hex tz t df = .ok df') :
    df'.cols.map Prod.fst = df.cols.map Prod.fst ∧
    ∀ name, name ≠ t.params.column → df'.getCol name = df.getCol name := by
  unfold applyTransform at h
  split at h
  · split at h
    · exact absurd h (by simp)
    · rw [Except.ok.injEq] at h
      subst h
      exact ⟨setCol_names df _ _, fun name hn => getCol_setCol_ne df _ name _ hn⟩
  · split at h
    · split at h
      · exact absurd h (by simp)
      · split at h
        · exact absurd h (by simp)
        · split at h
          · rw [Except.ok.injEq] at h
            subst h
            exact ⟨setCol_names df _ _, fun name hn => getCol_setCol_ne df _ name _ hn⟩
          · exact absurd h (by simp)
    · rw [Except.ok.injEq] at h
      subst h
      exact ⟨rfl, fun _ _ => rfl⟩
/-! ## Helper lemmas on the freshness decision and the load pipeline -/

theorem validate_source_type_ok (schema : Schema)
    (hok : (SUPPORTED_SOURCES.map Prod.fst).contains schema.source.type = true) :
    validate_source_type schema = .ok () := by
  unfold validate_source_type
  dsimp only
  rw [hok]
  rfl

theorem validate_source_type_error (schema : Schema)
    (hbad : (SUPPORTED_SOURCES.map Prod.fst).contains schema.source.type = false) :
    validate_source_type schema =
      .error (.valueError ("Unsupported database type: " ++ schema.source.type)) := by
  unfold validate_source_type
  dsimp only
  rw [hbad]
  rfl

theorem is_cache_valid_no_artifact (schema : Schema) (now : Int) (fs : FS)
    (cache_file : String) (h : fs.get cache_file = none) :
    is_cache_valid schema now fs cache_file = .ok false := by
  unfold is_cache_valid
  rw [h]

theorem is_cache_valid_non_weekly (schema : Schema) (now : Int) (fs : FS)
    (cache_file : String) (uf : String)
    (huf : schema.update_frequency = some uf) (hne : uf ≠ "weekly") :
    is_cache_valid schema now fs cache_file = .ok false := by
  unfold is_cache_valid
  cases hget : fs.get cache_file with
  | none => rfl
  | some art => rw [huf]; simp [hne]

theorem is_cache_valid_absent_freq (schema : Schema) (now : Int) (fs : FS)
    (cache_file : String) (art : Artifact)
    (huf : schema.update_frequency = none) (hget : fs.get cache_file = some art) :
    is_cache_valid schema now fs cache_file = .error (.keyError "update_frequency") := by
  unfold is_cache_valid
  rw [hget, huf]

theorem is_cache_valid_weekly_fresh (schema : Schema) (now : Int) (fs : FS)
    (cache_file : String) (art : Artifact)
    (huf : schema.update_frequency = some "weekly")
    (hget : fs.get cache_file = some art) (hfresh : art.mtime > now - oneWeek) :
    is_cache_valid schema now fs cache_file = .ok true := by
  unfold is_cache_valid
  rw [hget, huf]
  simp [hfresh]

theorem is_cache_valid_weekly_stale (schema : Schema) (now : Int) (fs : FS)
    (cache_file : String) (art : Artifact)
    (huf : schema.update_frequency = some "weekly")
    (hget : fs.get cache_file = some art) (hstale : art.mtime ≤ now - oneWeek) :
    is_cache_valid schema now fs cache_file = .ok false := by
  unfold is_cache_valid
  rw [hget, huf]
  simpa using hstale

theorem read_cache_artifact (schema : Schema) (fs : FS) (cache_file : String)
    (art : Artifact)
    (hfmt : schema.destination.format = "parquet" ∨ schema.destination.format = "csv")
    (hget : fs.get cache_file = some art) :
    read_cache schema fs cache_file = .ok art.content := by
  unfold read_cache
  cases hfmt with
  | inl hp => rw [hp]; simp [hget]
  | inr hc => rw [hc]; simp [hget]

theorem cache_data_ok (schema : Schema) (df : Table) (now : Int) (fs : FS)
    (cache_file : String)
    (hfmt : schema.destination.format = "parquet" ∨ schema.destination.format = "csv") :
    cache_data schema df now fs cache_file = .ok (fs.set cache_file ⟨df, now⟩) := by
  unfold cache_data
  cases hfmt with
  | inl hp => rw [hp]; simp
  | inr hc => rw [hc]; simp

/-- When validation fails, `load` raises before any cache or source step. -/
theorem load_invalid_source (md5hex : String → String)
    (tz : String → List PyVal → Except PyError (List PyVal))
    (fetch : String → Except PyError Table) (schema : Schema)
    (dataset_path : String) (now : Int) (fs : FS)
    (hbad : (SUPPORTED_SOURCES.map Prod.fst).contains schema.source.type = false) :
    load md5hex tz fetch schema dataset_path now fs =
      (.error (.valueError ("Unsupported database type: " ++ schema.source.type)), fs, []) := by
  unfold load
  rw [validate_source_type_error schema hbad]

/-- When the freshness decision raises, `load` propagates the exception after
only the cache check. -/
theorem load_freshness_error (md5hex : String → String)
    (tz : String → List PyVal → Except PyError (List PyVal))
    (fetch : String → Except PyError Table) (schema : Schema)
    (dataset_path : String) (now : Int) (fs : FS) (e : PyError)
    (hok : (SUPPORTED_SOURCES.map Prod.fst).contains schema.source.type = true)
    (herr : is_cache_valid schema now fs (get_cache_file_path schema dataset_path) = .error e) :
    load md5hex tz fetch schema dataset_path now fs =
      (.error e, fs, [.cacheCheck (get_cache_file_path schema dataset_path)]) := by
  unfold load
  rw [validate_source_type_ok schema hok]
  dsimp only
  rw [herr]

/-- On a `VALID` freshness decision, `load` returns what `_read_cache`
returns, leaves the filesystem alone, and performs no fetch and no write. -/
theorem load_cache_hit (md5hex : String → String)
    (tz : String → List PyVal → Except PyError (List PyVal))
    (fetch : String → Except PyError Table) (schema : Schema)
    (dataset_path : String) (now : Int) (fs : FS) (t : Table)
    (hok : (SUPPORTED_SOURCES.map Prod.fst).contains schema.source.type = true)
    (hvalid : is_cache_valid schema now fs (get_cache_file_path schema dataset_path) = .ok true)
    (hread : read_cache schema fs (get_cache_file_path schema dataset_path) = .ok t) :
    load md5hex tz fetch schema dataset_path now fs =
      (.ok t, fs, [.cacheCheck (get_cache_file_path schema dataset_path),
                   .cacheRead (get_cache_file_path schema dataset_path)]) := by
  unfold load
  rw [validate_source_type_ok schema hok]
  dsimp only
  rw [hvalid]
  dsimp only
  rw [hread]

/-- On a `STALE/MISSING` freshness decision, `load` unfolds to the
fetch → transform → write chain. -/
theorem load_stale_eq (md5hex : String → String)
    (tz : String → List PyVal → Except PyError (List PyVal))
    (fetch : String → Except PyError Table) (schema : Schema)
    (dataset_path : String) (now : Int) (fs : FS)
    (hok : (SUPPORTED_SOURCES.map Prod.fst).contains schema.source.type = true)
    (hstale : is_cache_valid schema now fs (get_cache_file_path schema dataset_path) = .ok false) :
    load md5hex tz fetch schema dataset_path now fs =
      (match fetch (generate_query schema) with
       | .error e => (.error e, fs,
           [.cacheCheck (get_cache_file_path schema dataset_path),
            .sourceFetch (generate_query schema)])
       | .ok df =>
         match apply_transformations md5hex tz schema df with
         | .error e => (.error e, fs,
             [.cacheCheck (get_cache_file_path schema dataset_path),
              .sourceFetch (generate_query schema)])
         | .ok df2 =>
           match cache_data schema df2 now fs (get_cache_file_path schema dataset_path) with
           | .error e => (.error e, fs,
               [.cacheCheck (get_cache_file_path schema dataset_path),
                .sourceFetch (generate_query schema)])
           | .ok fs2 =>
             (.ok df2, fs2,
              [.cacheCheck (get_cache_file_path schema dataset_path),
               .sourceFetch (generate_query schema),
               .cacheWrite (get_cache_file_path schema dataset_path)])) := by
  unfold load
  rw [validate_source_type_ok schema hok]
  dsimp only
  rw [hstale]

/-! ## Claim theorems -/

/-- C3: for every schema whose `source.type` is not a key of the source
registry, `load` fails with the `ValueError` naming the offending value
(`Unsupported database type: <type>`), the effect trace is empty (no cache
check, read or write and no source fetch happened) and the filesystem is
untouched: the failure precedes any cache decision or I/O. -/
theorem c3_unsupported_source_type (md5hex : String → String)
    (tz : String → List PyVal → Except PyError (List PyVal))
    (fetch : String → Except PyError Table) (schema : Schema)
    (dataset_path : String) (now : Int) (fs : FS)
    (hbad : (SUPPORTED_SOURCES.map Prod.fst).contains schema.source.type = false) :
    load md5hex tz fetch schema dataset_path now fs =
      (.error (.valueError ("Unsupported database type: " ++ schema.source.type)), fs, []) :=
  load_invalid_source md5hex tz fetch schema dataset_path now fs hbad

/-- Witness for C3: a `mongodb` source fails fast even though a fresh cache
artifact exists. -/
theorem c3_unsupported_source_type_witness :
    (SUPPORTED_SOURCES.map Prod.fst).contains schemaMongo.source.type = false ∧
    load hashX tzX (fun _ => Except.ok tableX) schemaMongo "sales" 1000 fs1 =
      (.error (.valueError ("Unsupported database type: " ++ schemaMongo.source.type)),
       fs1, []) :=
  ⟨by decide,
   c3_unsupported_source_type hashX tzX (fun _ => Except.ok tableX) schemaMongo
     "sales" 1000 fs1 (by decide)⟩

theorem intercalate_pair (a b : String) : String.intercalate ", " [a, b] = a ++ ", " ++ b := rfl

/-- The `ORDER BY` text `_generate_query` appends for each `order_by` value. -/
def orderByClauseText : Option OrderBy → String
  | none => ""
  | some (.scalar s) => " ORDER BY " ++ s
  | some (.seq l) => " ORDER BY " ++ String.intercalate ", " l

/-- The `LIMIT` text `_generate_query` appends for each `limit` value. -/
def limitClauseText : Option Nat → String
  | none => ""
  | some n => " LIMIT " ++ toString n

/-- C5: query construction is a pure function of columns, table, `order_by`
and `limit`.  With columns `[a, b]`, table `t` and neither `order_by` nor
`limit` the output is exactly `SELECT a, b FROM t` (names verbatim, no
quoting).  In general the output is the bare projection query followed by
the `ORDER BY` clause (a sequence joined with `", "`, a scalar used
directly) and then the `LIMIT` clause, in that order. -/
theorem c5_generate_query :
    (∀ (schema : Schema) (a b t : String),
        schema.columns.map (fun col => col.name) = [a, b] →
        schema.source.table = t → schema.order_by = none → schema.limit = none →
        generate_query schema = "SELECT " ++ a ++ ", " ++ b ++ " FROM " ++ t) ∧
    (∀ schema : Schema,
        generate_query schema =
          generate_query { schema with order_by := none, limit := none } ++
            orderByClauseText schema.order_by ++ limitClauseText schema.limit) := by
  constructor
  · intro schema a b t hcols htab hob hlim
    unfold generate_query
    dsimp only
    rw [hcols, htab, hob, hlim]
    simp [intercalate_pair, String.append_assoc]
  · intro schema
    unfold generate_query orderByClauseText limitClauseText
    dsimp only
    cases hob : schema.order_by with
    | none =>
      cases hlim : schema.limit with
      | none => simp
      | some n => simp [String.append_assoc]
    | some ob =>
      cases ob with
      | scalar s =>
        cases hlim : schema.limit with
        | none => simp [String.append_assoc]
        | some n => simp [String.append_assoc]
      | seq l =>
        cases hlim : schema.limit with
        | none => simp [String.append_assoc]
        | some n => simp [String.append_assoc]

/-- Witness for C5 on a concrete schema with `order_by` and `limit`. -/
theorem c5_generate_query_witness :
    generate_query schemaBase = "SELECT email, age FROM users" ∧
    generate_query { schemaBase with order_by := some (.seq ["email", "age"]), limit := some 10 } =
      generate_query schemaBase ++ " ORDER BY email, age" ++ " LIMIT 10" := by
  constructor
  · rw [c5_generate_query.1 schemaBase "email" "age" "users" rfl rfl rfl rfl]
    rfl
  · have h := c5_generate_query.2
      { schemaBase with order_by := some (.seq ["email", "age"]), limit := some 10 }
    simpa using h

/-- On a stale/missing decision the trace always includes the source fetch
with the generated query and never a cache read, whatever the fetch,
transformation and write outcomes are. -/
theorem load_stale_trace (md5hex : String → String)
    (tz : String → List PyVal → Except PyError (List PyVal))
    (fetch : String → Except PyError Table) (schema : Schema)
    (dataset_path : String) (now : Int) (fs : FS)
    (hok : (SUPPORTED_SOURCES.map Prod.fst).contains schema.source.type = true)
    (hstale : is_cache_valid schema now fs (get_cache_file_path schema dataset_path) = .ok false) :
    Effect.sourceFetch (generate_query schema) ∈
      (load md5hex tz fetch schema dataset_path now fs).2.2 ∧
    ∀ p, Effect.cacheRead p ∉ (load md5hex tz fetch schema dataset_path now fs).2.2 := by
  rw [load_stale_eq md5hex tz fetch schema dataset_path now fs hok hstale]
  cases hf : fetch (generate_query schema) with
  | error e => simp [hf]
  | ok df =>
    cases ht : apply_transformations md5hex tz schema df with
    | error e => simp [hf, ht]
    | ok df2 =>
      cases hw : cache_data schema df2 now fs (get_cache_file_path schema dataset_path) with
      | error e => simp [hf, ht, hw]
      | ok fs2 => simp [hf, ht, hw]

/-- A stale/missing decision followed by a successful fetch, transformation
and write produces the transformed table, the updated filesystem and the
full check → fetch → write trace. -/
theorem load_stale_success (md5hex : String → String)
    (tz : String → List PyVal → Except PyError (List PyVal))
    (fetch : String → Except PyError Table) (schema : Schema)
    (dataset_path : String) (now : Int) (fs : FS) (df df2 : Table)
    (hok : (SUPPORTED_SOURCES.map Prod.fst).contains schema.source.type = true)
    (hstale : is_cache_valid schema now fs (get_cache_file_path schema dataset_path) = .ok false)
    (hfetch : fetch (generate_query schema) = .ok df)
    (htrans : apply_transformations md5hex tz schema df = .ok df2)
    (hfmt : schema.destination.format = "parquet" ∨ schema.destination.format = "csv") :
    load md5hex tz fetch schema dataset_path now fs =
      (.ok df2, fs.set (get_cache_file_path schema dataset_path) ⟨df2, now⟩,
       [.cacheCheck (get_cache_file_path schema dataset_path),
        .sourceFetch (generate_query schema),
        .cacheWrite (get_cache_file_path schema dataset_path)]) := by
  rw [load_stale_eq md5hex tz fetch schema dataset_path now fs hok hstale, hfetch]
  dsimp only
  rw [htrans]
  dsimp only
  rw [cache_data_ok schema df2 now fs (get_cache_file_path schema dataset_path) hfmt]

/-- C1 counterexample: for `schemaNoFreq`, whose `update_frequency` key is
absent, with a cache artifact present, `load` raises
`KeyError("update_frequency")` and its trace holds only the cache check —
no source fetch — contradicting the claim that for a schema without
`update_frequency` the source backend is always invoked. -/
theorem c1_counterexample :
    load hashX tzX (fun _ => Except.ok tableX) schemaNoFreq "sales" 1000 fs1 =
      (.error (.keyError "update_frequency"), fs1,
       [.cacheCheck "datasets/sales/data.csv"]) := by
  rfl

/-- C1 (amended): for every schema with a supported source type: when
`update_frequency` is present with any value other than `"weekly"`, `load`
treats the cache as stale/missing — the source backend is invoked with the
generated query and the cache is never read, regardless of any cache
artifact or its age.  When `update_frequency` is absent the source is
invoked only if no cache artifact exists; with an artifact present, `load`
instead raises `KeyError("update_frequency")` without invoking the source. -/
theorem c1_update_frequency_policy (md5hex : String → String)
    (tz : String → List PyVal → Except PyError (List PyVal))
    (fetch : String → Except PyError Table) (schema : Schema)
    (dataset_path : String) (now : Int) (fs : FS)
    (hok : (SUPPORTED_SOURCES.map Prod.fst).contains schema.source.type = true) :
    (∀ uf, schema.update_frequency = some uf → uf ≠ "weekly" →
        Effect.sourceFetch (generate_query schema) ∈
          (load md5hex tz fetch schema dataset_path now fs).2.2 ∧
        ∀ p, Effect.cacheRead p ∉ (load md5hex tz fetch schema dataset_path now fs).2.2) ∧
    (schema.update_frequency = none →
        (fs.get (get_cache_file_path schema dataset_path) = none →
            Effect.sourceFetch (generate_query schema) ∈
              (load md5hex tz fetch schema dataset_path now fs).2.2) ∧
        (∀ art, fs.get (get_cache_file_path schema dataset_path) = some art →
            load md5hex tz fetch schema dataset_path now fs =
              (.error (.keyError "update_frequency"), fs,
               [.cacheCheck (get_cache_file_path schema dataset_path)]))) := by
  refine ⟨?_, fun habs => ⟨?_, ?_⟩⟩
  · intro uf huf hne
    exact load_stale_trace md5hex tz fetch schema dataset_path now fs hok
      (is_cache_valid_non_weekly schema now fs _ uf huf hne)
  · intro hget
    exact (load_stale_trace md5hex tz fetch schema dataset_path now fs hok
      (is_cache_valid_no_artifact schema now fs _ hget)).1
  · intro art hget
    exact load_freshness_error md5hex tz fetch schema dataset_path now fs _ hok
      (is_cache_valid_absent_freq schema now fs _ art habs hget)

/-- Witness for C1 (amended): a `daily` schema with a fresh artifact still
invokes the source backend. -/
theorem c1_update_frequency_policy_witness :
    Effect.sourceFetch (generate_query schemaDaily) ∈
      (load hashX tzX (fun _ => Except.ok tableX) schemaDaily "sales" 1000 fs1).2.2 :=
  ((c1_update_frequency_policy hashX tzX (fun _ => Except.ok tableX) schemaDaily
      "sales" 1000 fs1 (by decide)).1 "daily" rfl (by decide)).1

/-- C2: under `update_frequency: weekly` (and a readable cache format): a
cache artifact younger than one week is read and returned without invoking
the source backend; an absent artifact, or one at least a week old, makes
`load` fetch from the source, and when fetch and transformations succeed
the transformed table is written back to the cache. -/
theorem c2_weekly_policy (md5hex : String → String)
    (tz : String → List PyVal → Except PyError (List PyVal))
    (fetch : String → Except PyError Table) (schema : Schema)
    (dataset_path : String) (now : Int) (fs : FS)
    (hok : (SUPPORTED_SOURCES.map Prod.fst).contains schema.source.type = true)
    (huf : schema.update_frequency = some "weekly")
    (hfmt : schema.destination.format = "parquet" ∨ schema.destination.format = "csv") :
    (∀ art, fs.get (get_cache_file_path schema dataset_path) = some art →
        art.mtime > now - oneWeek →
        load md5hex tz fetch schema dataset_path now fs =
          (.ok art.content, fs,
           [.cacheCheck (get_cache_file_path schema dataset_path),
            .cacheRead (get_cache_file_path schema dataset_path)])) ∧
    ((fs.get (get_cache_file_path schema dataset_path) = none ∨
      ∃ art, fs.get (get_cache_file_path schema dataset_path) = some art ∧
        art.mtime ≤ now - oneWeek) →
        Effect.sourceFetch (generate_query schema) ∈
          (load md5hex tz fetch schema dataset_path now fs).2.2 ∧
        ∀ df df2, fetch (generate_query schema) = .ok df →
          apply_transformations md5hex tz schema df = .ok df2 →
          load md5hex tz fetch schema dataset_path now fs =
            (.ok df2, fs.set (get_cache_file_path schema dataset_path) ⟨df2, now⟩,
             [.cacheCheck (get_cache_file_path schema dataset_path),
              .sourceFetch (generate_query schema),
              .cacheWrite (get_cache_file_path schema dataset_path)])) := by
  constructor
  · intro art hget hfresh
    exact load_cache_hit md5hex tz fetch schema dataset_path now fs art.content hok
      (is_cache_valid_weekly_fresh schema now fs _ art huf hget hfresh)
      (read_cache_artifact schema fs _ art hfmt hget)
  · intro hstaleOr
    have hstale :
        is_cache_valid schema now fs (get_cache_file_path schema dataset_path) = .ok false := by
      rcases hstaleOr with h | ⟨art, hget, hle⟩
      · exact is_cache_valid_no_artifact schema now fs _ h
      · exact is_cache_valid_weekly_stale schema now fs _ art huf hget hle
    refine ⟨(load_stale_trace md5hex tz fetch schema dataset_path now fs hok hstale).1, ?_⟩
    intro df df2 hfetch htrans
    exact load_stale_success md5hex tz fetch schema dataset_path now fs df df2 hok hstale
      hfetch htrans hfmt

/-- Witness for C2: a one-day-old artifact under a weekly policy is read
back verbatim with no fetch and no write. -/
theorem c2_weekly_policy_witness :
    load hashX tzX (fun _ => Except.ok tableX) schemaBase "sales" 1000 fs1 =
      (.ok tableX, fs1,
       [.cacheCheck "datasets/sales/data.csv", .cacheRead "datasets/sales/data.csv"]) :=
  (c2_weekly_policy hashX tzX (fun _ => Except.ok tableX) schemaBase "sales" 1000 fs1
      (by decide) rfl (Or.inr rfl)).1 ⟨tableX, 999⟩ (by decide) (by decide)

/-- C10: on a cache hit (freshness decision `VALID`, fresh weekly artifact,
readable format) `load` returns exactly the artifact's stored table — no
transformation is applied to it — the final filesystem equals the initial
one (so the artifact's content and modification time are unchanged), and
the trace holds no cache write and no source fetch. -/
theorem c10_cache_hit_frame (md5hex : String → String)
    (tz : String → List PyVal → Except PyError (List PyVal))
    (fetch : String → Except PyError Table) (schema : Schema)
    (dataset_path : String) (now : Int) (fs : FS) (art : Artifact)
    (hok : (SUPPORTED_SOURCES.map Prod.fst).contains schema.source.type = true)
    (huf : schema.update_frequency = some "weekly")
    (hfmt : schema.destination.format = "parquet" ∨ schema.destination.format = "csv")
    (hget : fs.get (get_cache_file_path schema dataset_path) = some art)
    (hfresh : art.mtime > now - oneWeek) :
    (load md5hex tz fetch schema dataset_path now fs).1 = .ok art.content ∧
    (load md5hex tz fetch schema dataset_path now fs).2.1 = fs ∧
    (∀ p, Effect.cacheWrite p ∉ (load md5hex tz fetch schema dataset_path now fs).2.2) ∧
    (∀ q, Effect.sourceFetch q ∉ (load md5hex tz fetch schema dataset_path now fs).2.2) := by
  have h := load_cache_hit md5hex tz fetch schema dataset_path now fs art.content hok
    (is_cache_valid_weekly_fresh schema now fs _ art huf hget hfresh)
    (read_cache_artifact schema fs _ art hfmt hget)
  rw [h]
  refine ⟨rfl, rfl, ?_, ?_⟩ <;> intro x <;> simp

/-- Witness for C10 on a fresh artifact: content returned, filesystem
untouched, no write and no fetch in the trace. -/
theorem c10_cache_hit_frame_witness :
    (load hashX tzX (fun _ => Except.ok tableX) schemaBase "sales" 500000 fs1).1 =
      .ok tableX ∧
    (load hashX tzX (fun _ => Except.ok tableX) schemaBase "sales" 500000 fs1).2.1 = fs1 ∧
    Effect.cacheWrite "datasets/sales/data.csv" ∉
      (load hashX tzX (fun _ => Except.ok tableX) schemaBase "sales" 500000 fs1).2.2 ∧
    Effect.sourceFetch (generate_query schemaBase) ∉
      (load hashX tzX (fun _ => Except.ok tableX) schemaBase "sales" 500000 fs1).2.2 := by
  have h := c10_cache_hit_frame hashX tzX (fun _ => Except.ok tableX) schemaBase "sales"
    500000 fs1 ⟨tableX, 999⟩ (by decide) rfl (Or.inr rfl) (by decide) (by decide)
  exact ⟨h.1, h.2.1, h.2.2.1 _, h.2.2.2 _⟩

/-- C4: when the source fetch fails, or the fetch succeeds but a
transformation fails, `load` performs no cache write: the trace holds no
write effect and the filesystem — including any previously valid cache
artifact — is exactly the initial one.  The write step only runs after both
fetch and transformations succeed. -/
theorem c4_no_cache_write_on_failure (md5hex : String → String)
    (tz : String → List PyVal → Except PyError (List PyVal))
    (fetch : String → Except PyError Table) (schema : Schema)
    (dataset_path : String) (now : Int) (fs : FS)
    (hfail : (∀ df, fetch (generate_query schema) ≠ .ok df) ∨
             (∃ df e, fetch (generate_query schema) = .ok df ∧
               apply_transformations md5hex tz schema df = .error e)) :
    (load md5hex tz fetch schema dataset_path now fs).2.1 = fs ∧
    ∀ p, Effect.cacheWrite p ∉ (load md5hex tz fetch schema dataset_path now fs).2.2 := by
  unfold load
  cases hv : validate_source_type schema with
  | error e => simp [hv]
  | ok u =>
    dsimp only
    cases hc : is_cache_valid schema now fs (get_cache_file_path schema dataset_path) with
    | error e => simp [hv, hc]
    | ok b =>
      cases b with
      | true =>
        cases hr : read_cache schema fs (get_cache_file_path schema dataset_path) with
        | error e => simp [hv, hc, hr]
        | ok t => simp [hv, hc, hr]
      | false =>
        cases hf : fetch (generate_query schema) with
        | error e => simp [hv, hc, hf]
        | ok df =>
          rcases hfail with h1 | ⟨df', e, hfe, hte⟩
          · exact absurd hf (h1 df)
          · rw [hf] at hfe
            injection hfe with hdf
            subst hdf
            simp [hv, hc, hf, hte]

/-- Witness for C4: a failing backend leaves the filesystem (with its stale
artifact) untouched and writes nothing. -/
theorem c4_no_cache_write_on_failure_witness :
    (load hashX tzX
        (fun _ => Except.error (.importError "Mysql connector not found."))
        schemaBase "sales" 2000000 fs1).2.1 = fs1 ∧
    Effect.cacheWrite "datasets/sales/data.csv" ∉
      (load hashX tzX
        (fun _ => Except.error (.importError "Mysql connector not found."))
        schemaBase "sales" 2000000 fs1).2.2 := by
  have h := c4_no_cache_write_on_failure hashX tzX
    (fun _ => Except.error (.importError "Mysql connector not found."))
    schemaBase "sales" 2000000 fs1
    (Or.inl (fun df hdf => Except.noConfusion hdf))
  exact ⟨h.1, h.2 _⟩

theorem splitFirst_of_mem {sep : Char} {xs : List Char} (h : sep ∈ xs) :
    ∃ p, splitFirst sep xs = some p := by
  induction xs with
  | nil => cases h
  | cons c cs ih =>
    by_cases hc : c = sep
    · exact ⟨([], cs), by simp [splitFirst, hc]⟩
    · have hm : sep ∈ cs := by
        rcases List.mem_cons.mp h with h1 | h2
        · exact absurd h1.symm hc
        · exact h2
      obtain ⟨⟨a, b⟩, hp⟩ := ih hm
      exact ⟨(c :: a, b), by simp [splitFirst, hc, hp]⟩

/-- C6: the anonymize value transform, for every choice of the deterministic
hash primitive.  A string containing `@`, written `l ++ "@" ++ d` with `d`
free of `@` (so the split is at the LAST `@`), maps to the hash of the
local part followed by `@` and the unchanged domain; a string without `@`
and every non-string value pass through unchanged.  Determinism is
inherent: `anonymize` is a function of the hash and the value. -/
theorem c6_anonymize :
    (∀ (md5hex : String → String) (l d : String), '@' ∉ d.data →
        anonymize md5hex (.vstr (l ++ "@" ++ d)) = .vstr (md5hex l ++ "@" ++ d)) ∧
    (∀ (md5hex : String → String) (s : String), '@' ∉ s.data →
        anonymize md5hex (.vstr s) = .vstr s) ∧
    (∀ (md5hex : String → String) (n : Int), anonymize md5hex (.vint n) = .vint n) ∧
    (∀ md5hex : String → String, anonymize md5hex .vnone = .vnone) := by
  refine ⟨fun md5hex l d h => anonymize_concat md5hex l d h,
          fun md5hex s h => ?_, fun _ _ => rfl, fun _ => rfl⟩
  simp only [anonymize, if_neg h]

/-- Witness for C6: `alice@example.com` is rewritten to
`hash("alice") ++ "@example.com"`; strings without `@` and non-strings
pass through. -/
theorem c6_anonymize_witness :
    anonymize hashX (.vstr "alice@example.com") = .vstr "halice@example.com" ∧
    anonymize hashX (.vstr "not-an-email") = .vstr "not-an-email" ∧
    anonymize hashX (.vint 30) = .vint 30 :=
  ⟨c6_anonymize.1 hashX "alice" "example.com" (by decide),
   c6_anonymize.2.1 hashX "not-an-email" (by decide),
   c6_anonymize.2.2.1 hashX 30⟩

/-- C9: for every string containing `@`, the split at the last `@` yields
exactly two parts, so the exception-driven pass-through branch of
`_anonymize` never fires for such strings; in particular `"@" ++ domain`
is not passed through unchanged but becomes `hash("") ++ "@" ++ domain`. -/
theorem c9_rsplit_total :
    (∀ s : String, '@' ∈ s.data → (rsplit1 '@' s.data).length = 2) ∧
    (∀ (md5hex : String → String) (d : String), '@' ∉ d.data →
        anonymize md5hex (.vstr ("@" ++ d)) = .vstr (md5hex "" ++ "@" ++ d)) := by
  constructor
  · intro s h
    have h' : '@' ∈ s.data.reverse := List.mem_reverse.mpr h
    obtain ⟨⟨a, b⟩, hp⟩ := splitFirst_of_mem h'
    unfold rsplit1
    rw [hp]
    rfl
  · intro md5hex d h
    exact anonymize_concat md5hex "" d h

/-- Witness for C9: the empty local part is hashed, not passed through. -/
theorem c9_rsplit_total_witness :
    anonymize hashX (.vstr "@example.com") = .vstr "h@example.com" :=
  c9_rsplit_total.2 hashX "example.com" (by decide)

/-- C7: the transformation engine applies the declared entries in order,
one pass per entry, stopping at the first raised exception; an entry whose
type is neither `anonymize` nor `convert_timezone` is silently ignored,
returning the table unchanged; and a successful entry touches only the
single column named in its params — the column-name list and every other
column's values are preserved. -/
theorem c7_transformations :
    (∀ (md5hex : String → String)
        (tz : String → List PyVal → Except PyError (List PyVal))
        (schema : Schema) (df : Table),
        apply_transformations md5hex tz schema df =
          applyTransformList md5hex tz schema.transformations df) ∧
    (∀ (md5hex : String → String)
        (tz : String → List PyVal → Except PyError (List PyVal))
        (t : Transform) (ts : List Transform) (df : Table),
        applyTransformList md5hex tz (t :: ts) df =
          match applyTransform md5hex tz t df with
          | .error e => .error e
          | .ok df2 => applyTransformList md5hex tz ts df2) ∧
    (∀ (md5hex : String → String)
        (tz : String → List PyVal → Except PyError (List PyVal))
        (t : Transform) (df : Table),
        t.type ≠ "anonymize" → t.type ≠ "convert_timezone" →
        applyTransform md5hex tz t df = .ok df) ∧
    (∀ (md5hex : String → String)
        (tz : String → List PyVal → Except PyError (List PyVal))
        (t : Transform) (df df' : Table),
        applyTransform md5hex tz t df = .ok df' →
        df'.cols.map Prod.fst = df.cols.map Prod.fst ∧
        ∀ name, name ≠ t.params.column → df'.getCol name = df.getCol name) := by
  refine ⟨fun _ _ _ _ => rfl, fun _ _ _ _ _ => rfl, fun md5hex tz t df h1 h2 => ?_,
          fun md5hex tz t df df' h => applyTransform_frame md5hex tz t df df' h⟩
  unfold applyTransform
  rw [if_neg h1, if_neg h2]

/-- Witness for C7: an unknown transformation type (`drop_nulls`) leaves
the table untouched, and an `anonymize` entry on `email` leaves `age`
unchanged. -/
theorem c7_transformations_witness :
    applyTransform hashX tzX ⟨"drop_nulls", ⟨"email", none⟩⟩ tableX = .ok tableX ∧
    applyTransform hashX tzX ⟨"anonymize", ⟨"email", none⟩⟩ tableX =
      .ok (tableX.setCol "email"
        [PyVal.vstr (hashX "alice" ++ "@" ++ "example.com")]) ∧
    (tableX.setCol "email" [PyVal.vstr (hashX "alice" ++ "@" ++ "example.com")]).getCol "age" =
      tableX.getCol "age" := by
  refine ⟨c7_transformations.2.2.1 hashX tzX ⟨"drop_nulls", ⟨"email", none⟩⟩ tableX
      (by decide) (by decide), ?_, ?_⟩
  · rfl
  · exact (c7_transformations.2.2.2 hashX tzX ⟨"anonymize", ⟨"email", none⟩⟩ tableX
      (tableX.setCol "email" [PyVal.vstr (hashX "alice" ++ "@" ++ "example.com")])
      (by rfl)).2 "age" (by decide)

theorem string_eq_empty_of_data (s : String) (h : s.data = []) : s = "" := by
  rw [← string_mk_data s, h]

theorem string_append_ne_empty_left (a b : String) (ha : a.data ≠ []) : a ++ b ≠ "" := by
  intro h
  have hd : (a ++ b).data = [] := by rw [h]
  rw [string_data_append] at hd
  exact ha (List.append_eq_nil.mp hd).1

theorem string_getLast_append (a b : String) (hb : b.data ≠ []) :
    (a ++ b).data.getLast? = b.data.getLast? := by
  rw [string_data_append]
  exact List.getLast?_append_of_ne_nil a.data hb

/-- `os.path.join a b` with a relative `b` and an `a` that is nonempty and
does not end in `/` inserts exactly one separator. -/
theorem osPathJoin_relative (a b : String) (ha1 : a ≠ "")
    (ha2 : a.data.getLast? ≠ some '/') (hb : b.data.head? ≠ some '/') :
    osPathJoin a b = a ++ "/" ++ b := by
  unfold osPathJoin
  rw [if_neg hb, if_neg (fun h => h.elim ha1 ha2)]

/-- C8: cache-path derivation.  For an identifier that is a plain relative
path segment: a schema with an explicit (relative) `destination.path` maps
to `datasets/<identifier>/<path>` with the path taken verbatim; without a
path, the default filename is `data.parquet` exactly when the format is
`parquet`, and `data.csv` for every other format value. -/
theorem c8_cache_file_path (schema : Schema) (dataset_path : String)
    (hid0 : dataset_path ≠ "")
    (hid1 : dataset_path.data.head? ≠ some '/')
    (hid2 : dataset_path.data.getLast? ≠ some '/') :
    (∀ p, schema.destination.path = some p → p.data.head? ≠ some '/' →
        get_cache_file_path schema dataset_path =
          "datasets/" ++ dataset_path ++ "/" ++ p) ∧
    (schema.destination.path = none → schema.destination.format = "parquet" →
        get_cache_file_path schema dataset_path =
          "datasets/" ++ dataset_path ++ "/" ++ "data.parquet") ∧
    (schema.destination.path = none → schema.destination.format ≠ "parquet" →
        get_cache_file_path schema dataset_path =
          "datasets/" ++ dataset_path ++ "/" ++ "data.csv") := by
  have hdata : dataset_path.data ≠ [] :=
    fun h => hid0 (string_eq_empty_of_data dataset_path h)
  have hinner : osPathJoin "datasets" dataset_path = "datasets" ++ "/" ++ dataset_path :=
    osPathJoin_relative "datasets" dataset_path (by decide) (by decide) hid1
  have hne : "datasets" ++ "/" ++ dataset_path ≠ "" :=
    string_append_ne_empty_left ("datasets" ++ "/") dataset_path (by decide)
  have hlast : ("datasets" ++ "/" ++ dataset_path).data.getLast? ≠ some '/' := by
    rw [string_getLast_append ("datasets" ++ "/") dataset_path hdata]
    exact hid2
  refine ⟨?_, ?_, ?_⟩
  · intro p hp hrel
    unfold get_cache_file_path
    rw [hp]
    dsimp only
    rw [hinner, osPathJoin_relative _ p hne hlast hrel]
    rfl
  · intro hp hfmt
    unfold get_cache_file_path
    rw [hp]
    dsimp only
    rw [hfmt]
    rw [hinner]
    rw [osPathJoin_relative _ _ hne hlast (by decide)]
    rfl
  · intro hp hfmt
    unfold get_cache_file_path
    rw [hp]
    dsimp only
    rw [if_neg hfmt]
    rw [hinner]
    rw [osPathJoin_relative _ _ hne hlast (by decide)]
    rfl

/-- Witness for C8: explicit path and both default-filename cases at
concrete schemas. -/
theorem c8_cache_file_path_witness :
    get_cache_file_path { schemaBase with destination := ⟨"csv", some "cache/my.csv"⟩ }
        "sales" = "datasets/sales/cache/my.csv" ∧
    get_cache_file_path { schemaBase with destination := ⟨"parquet", none⟩ } "sales" =
      "datasets/sales/data.parquet" ∧
    get_cache_file_path schemaBase "sales" = "datasets/sales/data.csv" := by
  refine ⟨?_, ?_, ?_⟩
  · have h := (c8_cache_file_path { schemaBase with destination := ⟨"csv", some "cache/my.csv"⟩ }
      "sales" (by decide) (by decide) (by decide)).1 "cache/my.csv" rfl (by decide)
    exact h
  · have h := (c8_cache_file_path { schemaBase with destination := ⟨"parquet", none⟩ }
      "sales" (by decide) (by decide) (by decide)).2.1 rfl rfl
    exact h
  · have h := (c8_cache_file_path schemaBase "sales"
      (by decide) (by decide) (by decide)).2.2 rfl (by decide)
    exact h
